import Mathlib

/-!
Shallow embedding of the MetaTrader 5 adapter subsystem of the flowsurface
repository (src/exchange/src/adapter/metatrader5.rs together with the
persisted configuration record in src/data/src/config/state.rs), and proofs
of the specification claims about it.

Conventions of the embedding:
- Rust u64 / i32 machine integers become Nat / Int; wraparound never occurs
  in the modelled code paths, so no explicit modulus is needed except in the
  SHA-256 core where 32-bit arithmetic is written with an explicit mod 2^32.
- Rust f64 / f32 wire values become Rat; the adapter only moves these values
  around and divides by two, so exact arithmetic is a faithful abstraction.
- serde_json values become the inductive Json below; deserialization of the
  derived message structs is written out field by field following serde
  semantics (required fields must be present with the right shape, Option
  fields default to none, unknown fields are ignored, and a Vec fails as a
  whole when any element fails).
- The async network is an explicit environment value: each awaited receive
  is an entry of a list, a transport error is an error entry, and an await
  that would stay pending forever is represented by an explicit hang marker.
-/

/-! ## JSON values (model of serde_json::Value) -/

inductive Json where
  | null : Json
  | bool : Bool → Json
  | num : Rat → Json
  | str : String → Json
  | arr : List Json → Json
  | obj : List (String × Json) → Json

/-- First binding of a key in a JSON object, none for non-objects. -/
def Json.get (j : Json) (key : String) : Option Json :=
  match j with
  | .obj fields => fields.lookup key
  | _ => none

/-- serde: a required String field. -/
def parseStr : Option Json → Option String
  | some (.str s) => some s
  | _ => none

/-- serde: a required f64 field (any JSON number). -/
def parseF64 : Option Json → Option Rat
  | some (.num q) => some q
  | _ => none

/-- serde: a required u64 field (integral JSON number in range). -/
def parseU64 : Option Json → Option Nat
  | some (.num q) =>
      if q.den = 1 ∧ 0 ≤ q.num ∧ q.num < (2 : Int) ^ 64 then some q.num.toNat else none
  | _ => none

/-- serde: a required i32 field (integral JSON number in range). -/
def parseI32 : Option Json → Option Int
  | some (.num q) =>
      if q.den = 1 ∧ -((2 : Int) ^ 31) ≤ q.num ∧ q.num < (2 : Int) ^ 31 then some q.num else none
  | _ => none

/-- serde: an Option Bool field; absent or null is none, a bool is some. -/
def parseOptBool : Option Json → Option (Option Bool)
  | none => some none
  | some .null => some none
  | some (.bool b) => some (some b)
  | _ => none

/-- serde: an Option String field; absent or null is none, a string is some. -/
def parseOptStr : Option Json → Option (Option String)
  | none => some none
  | some .null => some none
  | some (.str s) => some (some s)
  | _ => none

/-! ## Domain types shared with the rest of the repository

The adapter crate root (Ticker, TickerInfo, Trade, Kline, depth types,
events, errors) is not under src/; these are modelled from the spec,
keeping the field and variant names the adapter source uses. -/

/-- Exchange tag; the adapter under study only ever names MetaTrader5. -/
inductive Exchange where
  | MetaTrader5 : Exchange
deriving DecidableEq

/-- Modelled from the spec: instrument key, a symbol identifier plus an
exchange tag. -/
structure Ticker where
  symbol : String
  exchange : Exchange
deriving DecidableEq

/-- Constructor mirroring Ticker::new(symbol, exchange). -/
def Ticker.new (symbol : String) (exchange : Exchange) : Ticker :=
  ⟨symbol, exchange⟩

/-- Modelled from the spec: instrument descriptor with minimum price
increment, minimum order size and optional contract size. -/
structure TickerInfo where
  ticker : Ticker
  min_ticksize : Rat
  min_qty : Rat
  contract_size : Option Rat
deriving DecidableEq

/-- Constructor mirroring TickerInfo::new(ticker, tick_size, min_lot, contract_size). -/
def TickerInfo.new (ticker : Ticker) (tick_size : Rat) (min_lot : Rat)
    (contract_size : Option Rat) : TickerInfo :=
  ⟨ticker, tick_size, min_lot, contract_size⟩

/-- Modelled from the spec: prices are quantized to the minimum tick before
becoming canonical; rounding to the nearest multiple of the tick size. -/
def roundToMinTick (p : Rat) (tick : Rat) : Rat :=
  if tick = 0 then p else (round (p / tick) : Int) * tick

/-- Canonical trade, fields as constructed literally in parse_trade. -/
structure Trade where
  time : Nat
  is_sell : Bool
  price : Rat
  qty : Rat
deriving DecidableEq

/-- Canonical candle. Modelled from the spec: open time, OHLC, split
buy/sell volume. The source field named open is rendered open_. -/
structure Kline where
  time : Nat
  open_ : Rat
  high : Rat
  low : Rat
  close : Rat
  buy_volume : Rat
  sell_volume : Rat
deriving DecidableEq

/-- Modelled from the spec: Kline::new stores the open time, the OHLC
prices quantized to the minimum tick, and the given (buy, sell) volume
split. -/
def Kline.new (time : Nat) (o : Rat) (h : Rat) (l : Rat) (c : Rat)
    (volume : Rat × Rat) (min_ticksize : Rat) : Kline :=
  ⟨time, roundToMinTick o min_ticksize, roundToMinTick h min_ticksize,
    roundToMinTick l min_ticksize, roundToMinTick c min_ticksize,
    volume.1, volume.2⟩

/-- Price level as deserialized from the wire (crate::depth::DeOrder). -/
structure DeOrder where
  price : Rat
  qty : Rat
deriving DecidableEq

/-- Depth payload handed to the cache (crate::depth::DepthPayload). -/
structure DepthPayload where
  last_update_id : Nat
  time : Nat
  bids : List DeOrder
  asks : List DeOrder
deriving DecidableEq

/-- Depth update kinds (crate::depth::DepthUpdate); the MT5 adapter only
ever constructs Snapshot. -/
inductive DepthUpdate where
  | Snapshot : DepthPayload → DepthUpdate
  | Diff : DepthPayload → DepthUpdate
deriving DecidableEq

/-- Reconstructed book: price to quantity per side. -/
structure Depth where
  bids : List (Rat × Rat)
  asks : List (Rat × Rat)
deriving DecidableEq

/-- Modelled from the spec: the per-stream depth cache owns the current
book plus the last applied update identifier and time. -/
structure LocalDepthCache where
  last_update_id : Nat
  time : Nat
  depth : Depth
deriving DecidableEq

/-- Modelled from the spec: empty book before the first snapshot. -/
def LocalDepthCache.default : LocalDepthCache :=
  ⟨0, 0, ⟨[], []⟩⟩

/-- Upsert of one price level; zero quantity removes the level. -/
def upsertLevel (side : List (Rat × Rat)) (price : Rat) (qty : Rat) :
    List (Rat × Rat) :=
  if qty = 0 then side.filter (fun l => l.1 ≠ price)
  else if side.any (fun l => l.1 = price) then
    side.map (fun l => if l.1 = price then (price, qty) else l)
  else side ++ [(price, qty)]

/-- Modelled from the spec: an update is applied only if its identifier
exceeds the last applied one; a snapshot replaces both sides, a diff
upserts individual levels; the cache time becomes the update time. -/
def LocalDepthCache.update (c : LocalDepthCache) (u : DepthUpdate)
    (_min_ticksize : Rat) : LocalDepthCache :=
  match u with
  | .Snapshot p =>
      if c.last_update_id < p.last_update_id then
        ⟨p.last_update_id, p.time,
          ⟨p.bids.map (fun o => (o.price, o.qty)), p.asks.map (fun o => (o.price, o.qty))⟩⟩
      else c
  | .Diff p =>
      if c.last_update_id < p.last_update_id then
        ⟨p.last_update_id, p.time,
          ⟨p.bids.foldl (fun s o => upsertLevel s o.price o.qty) c.depth.bids,
            p.asks.foldl (fun s o => upsertLevel s o.price o.qty) c.depth.asks⟩⟩
      else c

/-- Stream tick-size aggregation tag used by the adapter. -/
inductive StreamTicksize where
  | Client : StreamTicksize
deriving DecidableEq

/-- Push frequency tag used by the adapter. -/
inductive PushFrequency where
  | Realtime : PushFrequency
deriving DecidableEq

/-- Stream descriptor; the adapter constructs DepthAndTrades. -/
structure StreamKind where
  ticker_info : TickerInfo
  depth_aggr : StreamTicksize
  push_freq : PushFrequency
deriving DecidableEq

/-- Adapter error taxonomy, the two variants the MT5 adapter constructs. -/
inductive AdapterError where
  | WebsocketError : String → AdapterError
  | ParseError : String → AdapterError
deriving DecidableEq

/-- Modelled from the spec: the human-readable text of an adapter error,
the underlying error text. -/
def AdapterError.text : AdapterError → String
  | .WebsocketError s => s
  | .ParseError s => s

deriving instance DecidableEq for Except

/-- Events on the bounded output channel. -/
inductive Event where
  | Connected : Exchange → Event
  | Disconnected : Exchange → String → Event
  | DepthReceived : StreamKind → Nat → Depth → List Trade → Event
deriving DecidableEq

/-! ## Configuration types -/

/-- Mt5Config from src/exchange/src/adapter/metatrader5.rs. -/
structure Mt5Config where
  server_addr : String
  api_key : String
  api_secret : String
  use_tls : Bool
  timeout_secs : Nat
  auto_reconnect : Bool
deriving DecidableEq

/-- Mt5Config::default. -/
def Mt5Config.default : Mt5Config :=
  ⟨"localhost:9876", "", "", false, 30, true⟩

/-- Mt5Config::ws_url. -/
def Mt5Config.ws_url (c : Mt5Config) : String :=
  (if c.use_tls then "wss" else "ws") ++ "://" ++ c.server_addr ++ "/client"

/-- Mt5Config::validate. -/
def Mt5Config.validate (c : Mt5Config) : Except String Unit :=
  if c.server_addr.isEmpty then .error "Server address is required"
  else if c.api_key.isEmpty then .error "API key is required"
  else if c.api_secret.isEmpty then .error "API secret is required"
  else .ok ()

/-- Serde serialization of Mt5Config: fields in declaration order, with
api_secret skipped by its skip_serializing attribute. -/
def serializeMt5Config (c : Mt5Config) : Json :=
  .obj [("server_addr", .str c.server_addr),
        ("api_key", .str c.api_key),
        ("use_tls", .bool c.use_tls),
        ("timeout_secs", .num (c.timeout_secs : Rat)),
        ("auto_reconnect", .bool c.auto_reconnect)]

/-- Mt5Connection from src/data/src/config/state.rs: the persisted record. -/
structure Mt5Connection where
  name : String
  server_addr : String
  api_key : String
  use_tls : Bool
  auto_reconnect : Bool
deriving DecidableEq

/-- Serde serialization of Mt5Connection: all five fields, none skipped. -/
def serializeMt5Connection (c : Mt5Connection) : Json :=
  .obj [("name", .str c.name),
        ("server_addr", .str c.server_addr),
        ("api_key", .str c.api_key),
        ("use_tls", .bool c.use_tls),
        ("auto_reconnect", .bool c.auto_reconnect)]

/-- Keys of a serialized JSON object. -/
def jsonKeys : Json → List String
  | .obj fields => fields.map Prod.fst
  | _ => []

/-! ## Wire message deserialization (serde derive semantics) -/

/-- ServerMessage: required type string, optional success and error. -/
structure ServerMessage where
  msg_type : String
  success : Option Bool
  error : Option String
deriving DecidableEq

/-- Deserialize a ServerMessage from a JSON value. -/
def parseServerMessage (j : Json) : Option ServerMessage :=
  match j with
  | .obj _ => do
      let t ← parseStr (j.get "type")
      let su ← parseOptBool (j.get "success")
      let er ← parseOptStr (j.get "error")
      pure ⟨t, su, er⟩
  | _ => none

/-- Mt5Trade: time, price, volume, side. -/
structure Mt5Trade where
  time : Nat
  price : Rat
  volume : Rat
  side : String
deriving DecidableEq

/-- Deserialize an Mt5Trade from a JSON value. -/
def parseMt5Trade (j : Json) : Option Mt5Trade :=
  match j with
  | .obj _ => do
      let t ← parseU64 (j.get "time")
      let p ← parseF64 (j.get "price")
      let v ← parseF64 (j.get "volume")
      let s ← parseStr (j.get "side")
      pure ⟨t, p, v, s⟩
  | _ => none

/-- serde: a two-element number array, as for the Rust type [f64; 2]. -/
def parsePair : Json → Option (Rat × Rat)
  | .arr [.num a, .num b] => some (a, b)
  | _ => none

/-- serde: a Vec field fails as a whole when any element fails. -/
def parseAll {α : Type} (f : Json → Option α) : List Json → Option (List α)
  | [] => some []
  | x :: xs => do
      let a ← f x
      let rest ← parseAll f xs
      pure (a :: rest)

/-- serde: a required array field of pairs. -/
def parsePairs : Option Json → Option (List (Rat × Rat))
  | some (.arr xs) => parseAll parsePair xs
  | _ => none

/-- Mt5Depth: time plus bid and ask arrays of price-quantity pairs. -/
structure Mt5Depth where
  time : Nat
  bids : List (Rat × Rat)
  asks : List (Rat × Rat)
deriving DecidableEq

/-- Deserialize an Mt5Depth from a JSON value. -/
def parseMt5Depth (j : Json) : Option Mt5Depth :=
  match j with
  | .obj _ => do
      let t ← parseU64 (j.get "time")
      let bs ← parsePairs (j.get "bids")
      let as_ ← parsePairs (j.get "asks")
      pure ⟨t, bs, as_⟩
  | _ => none

/-- Mt5Kline: time plus OHLC and aggregate volume. -/
structure Mt5Kline where
  time : Nat
  open_ : Rat
  high : Rat
  low : Rat
  close : Rat
  volume : Rat
deriving DecidableEq

/-- Deserialize an Mt5Kline from a JSON value. -/
def parseMt5Kline (j : Json) : Option Mt5Kline :=
  match j with
  | .obj _ => do
      let t ← parseU64 (j.get "time")
      let o ← parseF64 (j.get "open")
      let h ← parseF64 (j.get "high")
      let l ← parseF64 (j.get "low")
      let c ← parseF64 (j.get "close")
      let v ← parseF64 (j.get "volume")
      pure ⟨t, o, h, l, c, v⟩
  | _ => none

/-- Mt5SymbolInfo: symbol, tick_size, min_lot, contract_size, digits. -/
structure Mt5SymbolInfo where
  symbol : String
  tick_size : Rat
  min_lot : Rat
  contract_size : Rat
  digits : Int
deriving DecidableEq

/-- Deserialize an Mt5SymbolInfo from a JSON value; the digits field is
required even though the Rust side never reads it. -/
def parseMt5SymbolInfo (j : Json) : Option Mt5SymbolInfo :=
  match j with
  | .obj _ => do
      let s ← parseStr (j.get "symbol")
      let ts ← parseF64 (j.get "tick_size")
      let ml ← parseF64 (j.get "min_lot")
      let cs ← parseF64 (j.get "contract_size")
      let d ← parseI32 (j.get "digits")
      pure ⟨s, ts, ml, cs, d⟩
  | _ => none

/-- SymbolsResponse: a data array where every entry must deserialize. -/
def parseSymbolsResponse (j : Json) : Option (List Mt5SymbolInfo) :=
  match j with
  | .obj _ =>
      match j.get "data" with
      | some (.arr xs) => parseAll parseMt5SymbolInfo xs
      | _ => none
  | _ => none

/-- KlinesResponse: a data array where every entry must deserialize. -/
def parseKlinesResponse (j : Json) : Option (List Mt5Kline) :=
  match j with
  | .obj _ =>
      match j.get "data" with
      | some (.arr xs) => parseAll parseMt5Kline xs
      | _ => none
  | _ => none

/-! ## Frame-level parsers of the adapter -/

/-- parse_trade from the adapter: a sell exactly when side is the string
sell, price rounded to the minimum tick. -/
def parse_trade (j : Json) (ticker_info : TickerInfo) : Except AdapterError Trade :=
  match parseMt5Trade j with
  | none => .error (.ParseError "invalid trade message")
  | some t =>
      .ok ⟨t.time, t.side = "sell", roundToMinTick t.price ticker_info.min_ticksize, t.volume⟩

/-- parse_depth from the adapter: both update identifier and time are the
frame time, levels copied as given. -/
def parse_depth (j : Json) (_ticker_info : TickerInfo) : Except AdapterError DepthPayload :=
  match parseMt5Depth j with
  | none => .error (.ParseError "invalid depth message")
  | some d =>
      .ok ⟨d.time, d.time,
        d.bids.map (fun pq => ⟨pq.1, pq.2⟩),
        d.asks.map (fun pq => ⟨pq.1, pq.2⟩)⟩

/-- Candle conversion step of fetch_klines: the aggregate volume is split
evenly between buy and sell. -/
def convertKline (ticker_info : TickerInfo) (k : Mt5Kline) : Kline :=
  let buy_volume := k.volume / 2
  let sell_volume := k.volume / 2
  Kline.new k.time k.open_ k.high k.low k.close (buy_volume, sell_volume)
    ticker_info.min_ticksize

/-- Conversion of a whole klines response, in response order. -/
def fetch_klines_convert (ticker_info : TickerInfo) (resp : List Mt5Kline) :
    List Kline :=
  resp.map (convertKline ticker_info)

/-! ## One-shot request model: fetch_ticksize -/

/-- One inbound websocket frame. -/
inductive Frame where
  | text : Json → Frame
  | binary : Frame
  | ping : Frame
  | pong : Frame
  | close : Frame

/-- One result of awaiting the next inbound frame: either a frame or a
transport read error. -/
def FrameRes : Type := Except String Frame

/-- Network environment of one fetch_ticksize call: the transport connect
outcome, the two send outcomes, and the at most two frames read. A none
frame means the connection was closed by the peer. -/
structure FetchEnv where
  connect : Except String Unit
  sendAuth : Except String Unit
  authFrame : Option FrameRes
  sendReq : Except String Unit
  respFrame : Option FrameRes

/-- HashMap::insert semantics on an association list: replace the binding
when the key exists, append otherwise. -/
def mapInsert (m : List (Ticker × Option TickerInfo)) (k : Ticker)
    (v : Option TickerInfo) : List (Ticker × Option TickerInfo) :=
  if m.any (fun p => p.1 = k) then
    m.map (fun p => if p.1 = k then (k, v) else p)
  else m ++ [(k, v)]

/-- One step of the symbol conversion loop of fetch_ticksize. -/
def insertStep (m : List (Ticker × Option TickerInfo))
    (sym_info : Mt5SymbolInfo) : List (Ticker × Option TickerInfo) :=
  let ticker := Ticker.new sym_info.symbol Exchange.MetaTrader5
  let info := TickerInfo.new ticker sym_info.tick_size sym_info.min_lot
    (some sym_info.contract_size)
  mapInsert m ticker (some info)

/-- Symbol conversion loop of fetch_ticksize. -/
def insertSymbols (entries : List Mt5SymbolInfo) :
    List (Ticker × Option TickerInfo) :=
  entries.foldl insertStep []

/-- Auth-response step of the one-shot calls: only a text frame is
examined; a frame that fails to deserialize as a ServerMessage is a parse
error, an auth_response whose success is not true fails the call with the
server error, and any other frame shape including a missing one is
silently accepted. -/
def authStep : Option FrameRes → Except AdapterError Unit
  | some (.ok (.text j)) =>
      match parseServerMessage j with
      | none => .error (.ParseError "invalid server message")
      | some resp =>
          if resp.msg_type = "auth_response" ∧ resp.success ≠ some true then
            .error (.WebsocketError (resp.error.getD "Auth failed"))
          else .ok ()
  | _ => .ok ()

/-- fetch_ticksize from the adapter, over an explicit network environment.
Mirrors the source: connect, send auth, optionally read one frame through
the auth step, send get_symbols, optionally read one frame (the symbols
map is filled only when that frame is text and the whole response
deserializes; otherwise the map stays empty), close, return Ok. -/
def fetch_ticksize (_config : Mt5Config) (env : FetchEnv) :
    Except AdapterError (List (Ticker × Option TickerInfo)) :=
  match env.connect with
  | .error e => .error (.WebsocketError e)
  | .ok () =>
    match env.sendAuth with
    | .error e => .error (.WebsocketError e)
    | .ok () =>
      match authStep env.authFrame with
      | .error e => .error e
      | .ok () =>
        match env.sendReq with
        | .error e => .error (.WebsocketError e)
        | .ok () =>
          match env.respFrame with
          | some (.ok (.text j)) =>
              match parseSymbolsResponse j with
              | some entries => .ok (insertSymbols entries)
              | none => .ok []
          | _ => .ok []

/-! ## Signed-auth codec: SHA-256, HMAC, hex (semantics of the sha2, hmac
and hex crates used by compute_hmac_signature) -/

/-- Truncation to 32 bits. -/
def mask32 (x : Nat) : Nat := x % 2 ^ 32

/-- 32-bit right rotation. -/
def rotr32 (n : Nat) (x : Nat) : Nat :=
  mask32 ((x >>> n) ||| (x <<< (32 - n)))

/-- 32-bit bitwise complement. -/
def not32 (x : Nat) : Nat := x ^^^ 0xffffffff

/-- SHA-256 round constants. -/
def sha256K : List Nat :=
  [1116352408, 1899447441, 3049323471, 3921009573, 961987163,
   1508970993, 2453635748, 2870763221, 3624381080, 310598401,
   607225278, 1426881987, 1925078388, 2162078206, 2614888103,
   3248222580, 3835390401, 4022224774, 264347078, 604807628,
   770255983, 1249150122, 1555081692, 1996064986, 2554220882,
   2821834349, 2952996808, 3210313671, 3336571891, 3584528711,
   113926993, 338241895, 666307205, 773529912, 1294757372,
   1396182291, 1695183700, 1986661051, 2177026350, 2456956037,
   2730485921, 2820302411, 3259730800, 3345764771, 3516065817,
   3600352804, 4094571909, 275423344, 430227734, 506948616,
   659060556, 883997877, 958139571, 1322822218, 1537002063,
   1747873779, 1955562222, 2024104815, 2227730452, 2361852424,
   2428436474, 2756734187, 3204031479, 3329325298]

/-- SHA-256 working state: eight 32-bit words. -/
structure Sha256State where
  a : Nat
  b : Nat
  c : Nat
  d : Nat
  e : Nat
  f : Nat
  g : Nat
  h : Nat

/-- SHA-256 initial hash value. -/
def sha256InitState : Sha256State :=
  ⟨1779033703, 3144134277, 1013904242, 2773480762,
   1359893119, 2600822924, 528734635, 1541459225⟩

/-- Big-endian bytes of a 64-bit value. -/
def be64 (n : Nat) : List Nat :=
  [n / 2 ^ 56 % 256, n / 2 ^ 48 % 256, n / 2 ^ 40 % 256, n / 2 ^ 32 % 256,
   n / 2 ^ 24 % 256, n / 2 ^ 16 % 256, n / 2 ^ 8 % 256, n % 256]

/-- Big-endian bytes of a 32-bit word. -/
def be32 (w : Nat) : List Nat :=
  [w / 2 ^ 24 % 256, w / 2 ^ 16 % 256, w / 2 ^ 8 % 256, w % 256]

/-- FIPS 180-4 padding: a 0x80 byte, zeros to 56 mod 64, the bit length. -/
def sha256Pad (m : List Nat) : List Nat :=
  let L := m.length
  let zeros := (64 - (L + 9) % 64) % 64
  m ++ [0x80] ++ List.replicate zeros 0 ++ be64 (L * 8)

/-- Split a byte list into 64-byte chunks. -/
def chunks64 (l : List Nat) : List (List Nat) :=
  if l = [] then [] else l.take 64 :: chunks64 (l.drop 64)
termination_by l.length
decreasing_by
  simp only [List.length_drop]
  cases l with
  | nil => simp_all
  | cons x xs => simp only [List.length_cons]; omega

/-- The sixteen initial message-schedule words of a chunk. -/
def initW (chunk : List Nat) : Array Nat :=
  ((List.range 16).map (fun i =>
    chunk.getD (4 * i) 0 * 2 ^ 24 + chunk.getD (4 * i + 1) 0 * 2 ^ 16 +
    chunk.getD (4 * i + 2) 0 * 2 ^ 8 + chunk.getD (4 * i + 3) 0)).toArray

/-- Message-schedule extension to 64 words. -/
def extendW (a : Array Nat) : Array Nat :=
  (List.range 48).foldl
    (fun a j =>
      let i := j + 16
      let s0 :=
        rotr32 7 (a.getD (i - 15) 0) ^^^ rotr32 18 (a.getD (i - 15) 0) ^^^
          (a.getD (i - 15) 0 >>> 3)
      let s1 :=
        rotr32 17 (a.getD (i - 2) 0) ^^^ rotr32 19 (a.getD (i - 2) 0) ^^^
          (a.getD (i - 2) 0 >>> 10)
      a.push (mask32 (a.getD (i - 16) 0 + s0 + a.getD (i - 7) 0 + s1)))
    a

/-- One SHA-256 compression round. -/
def sha256Round (w : Array Nat) (s : Sha256State) (i : Nat) : Sha256State :=
  let S1 := rotr32 6 s.e ^^^ rotr32 11 s.e ^^^ rotr32 25 s.e
  let ch := (s.e &&& s.f) ^^^ (not32 s.e &&& s.g)
  let t1 := mask32 (s.h + S1 + ch + sha256K.getD i 0 + w.getD i 0)
  let S0 := rotr32 2 s.a ^^^ rotr32 13 s.a ^^^ rotr32 22 s.a
  let maj := (s.a &&& s.b) ^^^ (s.a &&& s.c) ^^^ (s.b &&& s.c)
  let t2 := mask32 (S0 + maj)
  ⟨mask32 (t1 + t2), s.a, s.b, s.c, mask32 (s.d + t1), s.e, s.f, s.g⟩

/-- Compression of one 64-byte chunk into the running state. -/
def sha256Compress (st : Sha256State) (chunk : List Nat) : Sha256State :=
  let w := extendW (initW chunk)
  let f := (List.range 64).foldl (sha256Round w) st
  ⟨mask32 (st.a + f.a), mask32 (st.b + f.b), mask32 (st.c + f.c),
   mask32 (st.d + f.d), mask32 (st.e + f.e), mask32 (st.f + f.f),
   mask32 (st.g + f.g), mask32 (st.h + f.h)⟩

/-- Big-endian digest bytes of a state. -/
def sha256StateBytes (s : Sha256State) : List Nat :=
  be32 s.a ++ be32 s.b ++ be32 s.c ++ be32 s.d ++
    be32 s.e ++ be32 s.f ++ be32 s.g ++ be32 s.h

/-- SHA-256 of a byte list. -/
def sha256Bytes (m : List Nat) : List Nat :=
  sha256StateBytes ((chunks64 (sha256Pad m)).foldl sha256Compress sha256InitState)

/-- HMAC-SHA256 (RFC 2104): hash of opad-key and of the hash of ipad-key
and message, with the key hashed first when longer than the 64-byte block. -/
def hmacSha256 (key : List Nat) (msg : List Nat) : List Nat :=
  let k0 := if 64 < key.length then sha256Bytes key else key
  let k := k0 ++ List.replicate (64 - k0.length) 0
  let ipadKey := k.map (fun b => b ^^^ 0x36)
  let opadKey := k.map (fun b => b ^^^ 0x5c)
  sha256Bytes (opadKey ++ sha256Bytes (ipadKey ++ msg))

/-- The sixteen lowercase hex digit characters. -/
def hexDigitChars : List Char := "0123456789abcdef".toList

/-- Lowercase hex digit of a nibble. -/
def hexChar (n : Nat) : Char := hexDigitChars.getD (n % 16) '0'

/-- Lowercase hex encoding of a byte list (the hex crate), high nibble
first. -/
def hexEncode : List Nat → List Char
  | [] => []
  | b :: bs => hexChar (b / 16) :: hexChar b :: hexEncode bs

/-- UTF-8 bytes of a string, as Rust str::as_bytes. -/
def strBytes (s : String) : List Nat := s.toUTF8.toList.map UInt8.toNat

/-- compute_hmac_signature from the adapter: lowercase hex of the
HMAC-SHA256 of api_key concatenated with the decimal timestamp, keyed by
the secret. -/
def compute_hmac_signature (api_key : String) (timestamp : Nat)
    (secret : String) : String :=
  let message := api_key ++ toString timestamp
  String.mk (hexEncode (hmacSha256 (strBytes secret) (strBytes message)))

/-! ## Live stream model: connect_and_stream and connect_market_stream -/

/-- Network environment of one connect_and_stream attempt: the transport
connect outcome (none when it never completes), the auth and subscribe
send outcomes, the inbound frames in arrival order, and whether the frame
source stays pending forever once the list is exhausted (as opposed to
yielding end of stream). -/
structure LiveEnv where
  connect : Option (Except String Unit)
  sendAuth : Except String Unit
  sendSub : Except String Unit
  frames : List FrameRes
  hangAtEnd : Bool

/-- Mutable state threaded through one attempt: the depth cache, the trade
buffer, and the events sent on the output channel so far (in order). -/
structure LoopState where
  book : LocalDepthCache
  buffer : List Trade
  events : List Event

/-- Outcome of one attempt: either the attempt never returns (an await
with no timeout stays pending forever) or it returns a result; both carry
the state and events at that point. -/
inductive LoopOut where
  | hangs : LoopState → LoopOut
  | done : Except AdapterError Unit → LoopState → LoopOut

/-- State carried by an outcome. -/
def LoopOut.state : LoopOut → LoopState
  | .hangs s => s
  | .done _ s => s

/-- Result of the auth-response wait loop of connect_and_stream: the loop
reads frames until an auth_response arrives; a read error or a parse
error of a text frame aborts, a non-text frame or other message type is
skipped, end of stream leaves the attempt unauthenticated, and a source
that stays pending forever hangs (this loop has no timeout). -/
inductive AuthWaitRes where
  | authed : List FrameRes → AuthWaitRes
  | failed : AdapterError → AuthWaitRes
  | closed : AuthWaitRes
  | pending : AuthWaitRes

/-- The auth-response wait loop, returning the unconsumed frames. -/
def authWait (hangAtEnd : Bool) : List FrameRes → AuthWaitRes
  | [] => if hangAtEnd then .pending else .closed
  | (Except.error e) :: _ => .failed (.WebsocketError e)
  | (Except.ok f) :: rest =>
      match f with
      | .text j =>
          match parseServerMessage j with
          | none => .failed (.ParseError "invalid server message")
          | some sm =>
              if sm.msg_type = "auth_response" then
                if sm.success = some true then .authed rest
                else .failed (.WebsocketError (sm.error.getD "Auth failed"))
              else authWait hangAtEnd rest
      | _ => authWait hangAtEnd rest

/-- The stream descriptor connect_and_stream builds for its events. -/
def mt5StreamKind (ticker_info : TickerInfo) : StreamKind :=
  ⟨ticker_info, .Client, .Realtime⟩

/-- The steady-state read loop of connect_and_stream. Text frames are
dispatched by message type: trades append to the buffer, a depth frame
updates the cache and emits a DepthReceived event carrying the new book
and the drained buffer, heartbeat and error frames have no state effect,
unknown types are ignored; a transport ping gets a pong, a close frame
ends the loop cleanly, a read error aborts, end of stream ends the loop
cleanly, and a source pending forever hangs. -/
def mainLoop (ticker_info : TickerInfo) (hangAtEnd : Bool) (s : LoopState) :
    List FrameRes → LoopOut
  | [] => if hangAtEnd then .hangs s else .done (.ok ()) s
  | (Except.error e) :: _ => .done (.error (.WebsocketError e)) s
  | (Except.ok f) :: rest =>
      match f with
      | .text j =>
          match parseServerMessage j with
          | none => mainLoop ticker_info hangAtEnd s rest
          | some sm =>
              if sm.msg_type = "trade" then
                match parse_trade j ticker_info with
                | .ok trade =>
                    mainLoop ticker_info hangAtEnd
                      ⟨s.book, s.buffer ++ [trade], s.events⟩ rest
                | .error _ => mainLoop ticker_info hangAtEnd s rest
              else if sm.msg_type = "depth" then
                match parse_depth j ticker_info with
                | .ok depth_payload =>
                    let book := s.book.update (.Snapshot depth_payload)
                      ticker_info.min_ticksize
                    let trades := s.buffer
                    mainLoop ticker_info hangAtEnd
                      ⟨book, [],
                        s.events ++
                          [Event.DepthReceived (mt5StreamKind ticker_info)
                            book.time book.depth trades]⟩ rest
                | .error _ => mainLoop ticker_info hangAtEnd s rest
              else
                -- heartbeat replies with a pong, error is logged; neither
                -- touches the cache, the buffer or the output channel, and
                -- unknown types are ignored
                mainLoop ticker_info hangAtEnd s rest
      | .ping => mainLoop ticker_info hangAtEnd s rest
      | .close => .done (.ok ()) s
      | _ => mainLoop ticker_info hangAtEnd s rest

/-- connect_and_stream over an explicit environment: connect (no timeout;
a never-completing transport hangs), emit Connected immediately after the
transport is established and before any authentication, send the auth
request, run the auth wait loop (no timeout), send the subscribe request,
then run the read loop. -/
def connect_and_stream (_config : Mt5Config) (ticker_info : TickerInfo)
    (book : LocalDepthCache) (buffer : List Trade) (env : LiveEnv) : LoopOut :=
  match env.connect with
  | none => .hangs ⟨book, buffer, []⟩
  | some (.error e) => .done (.error (.WebsocketError e)) ⟨book, buffer, []⟩
  | some (.ok ()) =>
      let s0 : LoopState := ⟨book, buffer, [Event.Connected Exchange.MetaTrader5]⟩
      match env.sendAuth with
      | .error e => .done (.error (.WebsocketError e)) s0
      | .ok () =>
          match authWait env.hangAtEnd env.frames with
          | .pending => .hangs s0
          | .failed e => .done (.error e) s0
          | .closed =>
              .done (.error (.WebsocketError "No auth response received")) s0
          | .authed rest =>
              match env.sendSub with
              | .error e => .done (.error (.WebsocketError e)) s0
              | .ok () => mainLoop ticker_info env.hangAtEnd s0 rest

/-- Whether one attempt reaches the Streaming state: the transport
connects, both sends succeed and the auth wait succeeds. -/
def enteredStreaming (env : LiveEnv) : Bool :=
  match env.connect, env.sendAuth with
  | some (.ok ()), .ok () =>
      match authWait env.hangAtEnd env.frames with
      | .authed _ =>
          match env.sendSub with
          | .ok () => true
          | .error _ => false
      | _ => false
  | _, _ => false

/-- Events of one iteration of the connect_market_stream loop: the events
of the attempt, followed (when the attempt returns) by a Disconnected
event whose reason is the clean-close text on Ok and the error text on
Err. A hanging attempt emits no Disconnected event. -/
def streamIterationEvents (config : Mt5Config) (ticker_info : TickerInfo)
    (book : LocalDepthCache) (buffer : List Trade) (env : LiveEnv) : List Event :=
  match connect_and_stream config ticker_info book buffer env with
  | .hangs s => s.events
  | .done r s =>
      s.events ++
        [Event.Disconnected Exchange.MetaTrader5
          (match r with
           | .ok () => "Connection closed"
           | .error e => e.text)]

/-- Whether one iteration completes rather than hanging. -/
def iterationCompletes (config : Mt5Config) (ticker_info : TickerInfo)
    (book : LocalDepthCache) (buffer : List Trade) (env : LiveEnv) : Bool :=
  match connect_and_stream config ticker_info book buffer env with
  | .hangs _ => false
  | .done _ _ => true

/-- Reconnect backoff of connect_market_stream: the delay slept after each
completed attempt, in seconds. The delay starts at one second and is
updated to min(delay doubled, sixty) after every sleep, unconditionally on
the attempt outcome. -/
def backoffDelays {α : Type} (delay : Nat) : List α → List Nat
  | [] => []
  | _ :: rest => delay :: backoffDelays (min (delay * 2) 60) rest

/-! ## Test connection model -/

/-- Environment of one test_connection call, with explicit completion
times in seconds for the two awaits that the source wraps in timeouts. A
none time means the future never completes on its own. -/
structure TestEnv where
  connectTime : Option Nat
  connectResult : Except String Unit
  sendResult : Except String Unit
  authTime : Option Nat
  authItem : Option (Except String Frame)

/-- test_connection from the adapter: validate, connect bounded by the
configurable timeout_secs, send auth, then wait for the response bounded
by a fixed ten-second timeout; a text response must be an auth_response
with success true, anything else is an error. -/
def Mt5Config.test_connection (c : Mt5Config) (env : TestEnv) :
    Except String Unit :=
  match c.validate with
  | .error e => .error e
  | .ok () =>
    match env.connectTime with
    | none => .error "Connection timeout"
    | some t =>
      if c.timeout_secs < t then .error "Connection timeout"
      else
        match env.connectResult with
        | .error e => .error ("WebSocket error: " ++ e)
        | .ok () =>
          match env.sendResult with
          | .error e => .error ("Failed to send auth: " ++ e)
          | .ok () =>
            match env.authTime with
            | none => .error "Auth response timeout"
            | some t2 =>
              if 10 < t2 then .error "Auth response timeout"
              else
                match env.authItem with
                | none => .error "Connection closed"
                | some (.error e) => .error ("Read error: " ++ e)
                | some (.ok frame) =>
                    match frame with
                    | .text j =>
                        if parseStr (j.get "type") = some "auth_response" then
                          match j.get "success" with
                          | some (.bool true) => .ok ()
                          | _ =>
                              .error ("Auth failed: " ++
                                ((parseStr (j.get "error")).getD "Unknown error"))
                        else .error "Invalid auth response"
                    | _ => .error "Invalid auth response"

/-! ## Claim-side helper definitions -/

/-- Trades carried by one event: the drained slice of a DepthReceived,
nothing for the other events. -/
def eventTrades : Event → List Trade
  | .DepthReceived _ _ _ trades => trades
  | _ => []

/-- All trades delivered through the events of a list, in order. -/
def depthTrades (events : List Event) : List Trade :=
  events.foldr (fun e acc => eventTrades e ++ acc) []

/-- Whether an event is a DepthReceived. -/
def isDepthReceived : Event → Bool
  | .DepthReceived _ _ _ _ => true
  | _ => false

/-- The trades the read loop accepts from a frame list before it stops:
the well-formed trade frames up to the first read error or close frame.
This mirrors the spec notion of the trades received while the stream
stays connected. -/
def acceptedTrades (ticker_info : TickerInfo) : List FrameRes → List Trade
  | [] => []
  | (Except.error _) :: _ => []
  | (Except.ok f) :: rest =>
      match f with
      | .text j =>
          match parseServerMessage j with
          | none => acceptedTrades ticker_info rest
          | some sm =>
              if sm.msg_type = "trade" then
                match parse_trade j ticker_info with
                | .ok trade => trade :: acceptedTrades ticker_info rest
                | .error _ => acceptedTrades ticker_info rest
              else if sm.msg_type = "depth" then acceptedTrades ticker_info rest
              else acceptedTrades ticker_info rest
      | .ping => acceptedTrades ticker_info rest
      | .close => []
      | _ => acceptedTrades ticker_info rest

/-- The reason string connect_market_stream attaches to the Disconnected
event after an attempt returns. -/
def disconnectReason : Except AdapterError Unit → String
  | .ok () => "Connection closed"
  | .error e => e.text

/-! ## Concrete fixtures used by witnesses and counterexamples -/

/-- A sample instrument. -/
def tickerEURUSD : Ticker := Ticker.new "EURUSD" Exchange.MetaTrader5

/-- A sample instrument descriptor. -/
def tiEURUSD : TickerInfo :=
  TickerInfo.new tickerEURUSD (1 / 100000) (1 / 100) (some 100000)
/-- A kline entry with aggregate volume ten. -/
def kline10 : Mt5Kline := ⟨0, 1, 1, 1, 1, 10⟩
/-- A trade frame whose side field is the string SELL, uppercase. -/
def tradeSellCapsJson : Json :=
  .obj [("type", .str "trade"), ("time", .num 1), ("price", .num 2),
        ("volume", .num 3), ("side", .str "SELL")]
/-- A depth frame with one bid level at time five. -/
def depthJson0 : Json :=
  .obj [("type", .str "depth"), ("time", .num 5),
        ("bids", .arr [.arr [.num 1, .num 2]]), ("asks", .arr [])]
/-- An auth_response frame reporting failure with reason bad key. -/
def authFailJson : Json :=
  .obj [("type", .str "auth_response"), ("success", .bool false),
        ("error", .str "bad key")]
/-- An environment in which the transport connects but the server rejects
authentication. -/
def envAuthFail : LiveEnv :=
  ⟨some (.ok ()), .ok (), .ok (), [Except.ok (Frame.text authFailJson)], false⟩
/-- A fully well-formed symbol entry. -/
def goodSymbolJson : Json :=
  .obj [("symbol", .str "EURUSD"), ("tick_size", .num (1 / 100000)),
        ("min_lot", .num (1 / 100)), ("contract_size", .num 100000),
        ("digits", .num 5)]
/-- A malformed symbol entry missing every numeric field. -/
def badSymbolJson : Json := .obj [("symbol", .str "XAUUSD")]
/-- A symbols response holding one well-formed and one malformed entry. -/
def mixedSymbolsResponse : Json :=
  .obj [("data", .arr [goodSymbolJson, badSymbolJson])]
/-- A fetch environment delivering the mixed symbols response. -/
def envMixedSymbols : FetchEnv :=
  ⟨.ok (), .ok (), none, .ok (), some (.ok (.text mixedSymbolsResponse))⟩
/-- A symbols response whose single entry is well formed. -/
def goodSymbolsResponse : Json := .obj [("data", .arr [goodSymbolJson])]
/-- A fetch environment delivering the well-formed symbols response. -/
def envGoodSymbols : FetchEnv :=
  ⟨.ok (), .ok (), none, .ok (), some (.ok (.text goodSymbolsResponse))⟩
/-- A fetch environment whose transport connect fails. -/
def envConnRefused : FetchEnv :=
  ⟨.error "Connection refused", .ok (), none, .ok (), none⟩

/-- A fetch environment whose symbols-frame read fails at transport level. -/
def envReadError : FetchEnv :=
  ⟨.ok (), .ok (), none, .ok (), some (.error "connection reset")⟩

/-- A fetch environment whose auth-frame read fails at transport level and
whose symbols frame never arrives because the peer closed. -/
def envAuthReadError : FetchEnv :=
  ⟨.ok (), .ok (), some (.error "connection reset"), .ok (), none⟩

/-! ## Claim C6 -/

/-- Claim C6: validate checks address, key and secret in that order and
returns the error of the first empty field; the server-address error
whenever the address is empty regardless of the other fields, the key
error when the address is set and the key empty, the secret error only
when address and key are set and the secret empty, Ok when all three are
set. -/
theorem mt5_validate_field_order (c : Mt5Config) :
    (c.server_addr.isEmpty = true →
      c.validate = .error "Server address is required") ∧
    (c.server_addr.isEmpty = false → c.api_key.isEmpty = true →
      c.validate = .error "API key is required") ∧
    (c.server_addr.isEmpty = false → c.api_key.isEmpty = false →
      c.api_secret.isEmpty = true →
      c.validate = .error "API secret is required") ∧
    (c.server_addr.isEmpty = false → c.api_key.isEmpty = false →
      c.api_secret.isEmpty = false → c.validate = .ok ()) := by
  refine ⟨?_, ?_, ?_, ?_⟩
  · intro h1
    simp [Mt5Config.validate, h1]
  · intro h1 h2
    simp [Mt5Config.validate, h1, h2]
  · intro h1 h2 h3
    simp [Mt5Config.validate, h1, h2, h3]
  · intro h1 h2 h3
    simp [Mt5Config.validate, h1, h2, h3]

/-- Witness for C6 at four concrete configurations, one per case. -/
theorem mt5_validate_field_order_witness :
    Mt5Config.validate ⟨"", "k", "s", false, 30, true⟩ =
      .error "Server address is required" ∧
    Mt5Config.validate ⟨"a", "", "s", false, 30, true⟩ =
      .error "API key is required" ∧
    Mt5Config.validate ⟨"a", "k", "", false, 30, true⟩ =
      .error "API secret is required" ∧
    Mt5Config.validate ⟨"a", "k", "s", false, 30, true⟩ = .ok () :=
  ⟨(mt5_validate_field_order _).1 rfl,
   (mt5_validate_field_order _).2.1 rfl rfl,
   (mt5_validate_field_order _).2.2.1 rfl rfl rfl,
   (mt5_validate_field_order _).2.2.2 rfl rfl rfl⟩

/-! ## Claim C1 -/

/-- Claim C1: the API secret never appears in any serialized form of the
configuration; serializing Mt5Config yields identical output for two
configs that differ only in api_secret, and the persisted Mt5Connection
record serializes to exactly its five fields, none of which is a secret
field. -/
theorem mt5_secret_never_serialized :
    (∀ c₁ c₂ : Mt5Config,
      c₁.server_addr = c₂.server_addr → c₁.api_key = c₂.api_key →
      c₁.use_tls = c₂.use_tls → c₁.timeout_secs = c₂.timeout_secs →
      c₁.auto_reconnect = c₂.auto_reconnect →
      serializeMt5Config c₁ = serializeMt5Config c₂) ∧
    (∀ conn : Mt5Connection,
      jsonKeys (serializeMt5Connection conn) =
        ["name", "server_addr", "api_key", "use_tls", "auto_reconnect"] ∧
      "api_secret" ∉ jsonKeys (serializeMt5Connection conn) ∧
      "secret" ∉ jsonKeys (serializeMt5Connection conn)) := by
  constructor
  · intro c₁ c₂ h1 h2 h3 h4 h5
    simp [serializeMt5Config, h1, h2, h3, h4, h5]
  · intro conn
    refine ⟨rfl, ?_, ?_⟩
    · show "api_secret" ∉
        (["name", "server_addr", "api_key", "use_tls", "auto_reconnect"] : List String)
      decide
    · show "secret" ∉
        (["name", "server_addr", "api_key", "use_tls", "auto_reconnect"] : List String)
      decide

/-- Witness for C1: two concrete configs differing only in the secret
serialize identically. -/
theorem mt5_secret_never_serialized_witness :
    serializeMt5Config ⟨"a", "k", "secret1", false, 30, true⟩ =
      serializeMt5Config ⟨"a", "k", "secret2", false, 30, true⟩ ∧
    "api_secret" ∉ jsonKeys (serializeMt5Connection ⟨"n", "a", "k", false, true⟩) :=
  ⟨mt5_secret_never_serialized.1 _ _ rfl rfl rfl rfl rfl,
   (mt5_secret_never_serialized.2 ⟨"n", "a", "k", false, true⟩).2.1⟩

/-! ## Claim C9 -/

/-- Claim C9: every candle produced by the fetch_klines conversion splits
the reported aggregate volume evenly, buy and sell each half the total; a
total volume of ten yields buy volume five and sell volume five. -/
theorem mt5_kline_volume_split :
    (∀ (ti : TickerInfo) (resp : List Mt5Kline) (kl : Kline),
      kl ∈ fetch_klines_convert ti resp →
      ∃ k, k ∈ resp ∧ kl.buy_volume = k.volume / 2 ∧
        kl.sell_volume = k.volume / 2) ∧
    (∀ (ti : TickerInfo) (k : Mt5Kline), k.volume = 10 →
      (convertKline ti k).buy_volume = 5 ∧ (convertKline ti k).sell_volume = 5) := by
  constructor
  · intro ti resp kl hkl
    rw [fetch_klines_convert] at hkl
    obtain ⟨k, hk, rfl⟩ := List.mem_map.1 hkl
    exact ⟨k, hk, rfl, rfl⟩
  · intro ti k hv
    constructor <;>
      · show k.volume / 2 = 5
        rw [hv]
        norm_num


/-- Witness for C9 at the concrete volume-ten entry. -/
theorem mt5_kline_volume_split_witness :
    (convertKline tiEURUSD kline10).buy_volume = 5 ∧
    (convertKline tiEURUSD kline10).sell_volume = 5 :=
  mt5_kline_volume_split.2 tiEURUSD kline10 rfl

/-! ## Claim C10 -/

/-- Claim C10: for every well-formed trade frame, parse_trade succeeds and
classifies the trade as a sell exactly when the side field is the string
sell; any other side value yields is_sell false, a buy, rather than a
rejection. -/
theorem mt5_parse_trade_side_classification :
    ∀ (j : Json) (ti : TickerInfo) (mt : Mt5Trade),
      parseMt5Trade j = some mt →
      ∃ tr, parse_trade j ti = .ok tr ∧ (tr.is_sell = true ↔ mt.side = "sell") := by
  intro j ti mt h
  refine ⟨⟨mt.time, mt.side = "sell", roundToMinTick mt.price ti.min_ticksize,
    mt.volume⟩, ?_, ?_⟩
  · simp only [parse_trade, h]
  · simp


/-- Witness for C10: the uppercase SELL frame parses, and its trade is
classified a sell exactly when SELL equals sell, which it does not. -/
theorem mt5_parse_trade_side_witness :
    parseMt5Trade tradeSellCapsJson = some ⟨1, 2, 3, "SELL"⟩ ∧
    ∃ tr, parse_trade tradeSellCapsJson tiEURUSD = .ok tr ∧
      (tr.is_sell = true ↔ ("SELL" : String) = "sell") :=
  ⟨by decide,
   mt5_parse_trade_side_classification tradeSellCapsJson tiEURUSD
     ⟨1, 2, 3, "SELL"⟩ (by decide)⟩

/-! ## Claim C8 -/

/-- The digest bytes of any state are thirty-two bytes. -/
theorem sha256StateBytes_length (s : Sha256State) :
    (sha256StateBytes s).length = 32 := rfl

/-- SHA-256 always yields thirty-two bytes. -/
theorem sha256Bytes_length (m : List Nat) : (sha256Bytes m).length = 32 :=
  sha256StateBytes_length _

/-- HMAC-SHA256 always yields thirty-two bytes. -/
theorem hmacSha256_length (key msg : List Nat) :
    (hmacSha256 key msg).length = 32 :=
  sha256Bytes_length _

/-- Hex encoding doubles the length. -/
theorem hexEncode_length (l : List Nat) : (hexEncode l).length = 2 * l.length := by
  induction l with
  | nil => rfl
  | cons b t ih =>
      simp only [hexEncode, List.length_cons, ih]
      omega

/-- Every hex digit character is one of the sixteen lowercase digits. -/
theorem hexChar_mem (n : Nat) : hexChar n ∈ hexDigitChars := by
  have h : n % 16 < 16 := Nat.mod_lt _ (by norm_num)
  unfold hexChar
  set m := n % 16 with hm
  interval_cases m <;> decide

/-- Every character of a hex encoding is a lowercase hex digit. -/
theorem hexEncode_chars {c : Char} (l : List Nat) (hc : c ∈ hexEncode l) :
    c ∈ hexDigitChars := by
  induction l with
  | nil => cases hc
  | cons b t ih =>
      simp only [hexEncode, List.mem_cons] at hc
      rcases hc with h | h | h
      · exact h ▸ hexChar_mem _
      · exact h ▸ hexChar_mem _
      · exact ih h

/-- Claim C8: compute_hmac_signature is deterministic, its output is the
lowercase hex encoding of the HMAC-SHA256 of api_key concatenated with
the timestamp keyed by the secret, and it is exactly sixty-four lowercase
hex characters. -/
theorem mt5_hmac_signature_canonical :
    (∀ (k : String) (t : Nat) (s : String) (k' : String) (t' : Nat) (s' : String),
      k = k' → t = t' → s = s' →
      compute_hmac_signature k t s = compute_hmac_signature k' t' s') ∧
    (∀ (k : String) (t : Nat) (s : String),
      compute_hmac_signature k t s =
        String.mk (hexEncode (hmacSha256 (strBytes s) (strBytes (k ++ toString t))))) ∧
    (∀ (k : String) (t : Nat) (s : String),
      (compute_hmac_signature k t s).length = 64) ∧
    (∀ (k : String) (t : Nat) (s : String),
      ∀ c ∈ (compute_hmac_signature k t s).data, c ∈ hexDigitChars) := by
  refine ⟨?_, ?_, ?_, ?_⟩
  · intro k t s k' t' s' h1 h2 h3
    rw [h1, h2, h3]
  · intro k t s
    rfl
  · intro k t s
    show (hexEncode (hmacSha256 (strBytes s) (strBytes (k ++ toString t)))).length = 64
    rw [hexEncode_length, hmacSha256_length]
  · intro k t s c hc
    exact hexEncode_chars _ hc

/-- Witness for C8 at a concrete key, timestamp and secret. -/
theorem mt5_hmac_signature_canonical_witness :
    compute_hmac_signature "test_key" 1704355200000 "secret" =
      compute_hmac_signature "test_key" 1704355200000 "secret" ∧
    (compute_hmac_signature "test_key" 1704355200000 "secret").length = 64 :=
  ⟨mt5_hmac_signature_canonical.1 "test_key" 1704355200000 "secret"
      "test_key" 1704355200000 "secret" rfl rfl rfl,
   mt5_hmac_signature_canonical.2.2.1 "test_key" 1704355200000 "secret"⟩

/-! ## Claim C5 -/

/-- Indexed closed form of the backoff recurrence. -/
theorem backoffDelays_indexed {α : Type} (l : List α) (k n : Nat)
    (h : n < l.length) :
    (backoffDelays (min (2 ^ k) 60) l).getD n 0 = min (2 ^ (k + n)) 60 := by
  induction l generalizing k n with
  | nil => simp at h
  | cons a t ih =>
      cases n with
      | zero => simp [backoffDelays]
      | succ m =>
          have h' : m < t.length := by
            simpa using Nat.lt_of_succ_lt_succ h
          have step : min (min (2 ^ k) 60 * 2) 60 = min (2 ^ (k + 1)) 60 := by
            rcases le_or_lt (2 ^ k) 60 with hle | hlt
            · rw [min_eq_left hle, pow_succ]
            · have h60 : min (2 ^ k) 60 = 60 := min_eq_right hlt.le
              have hbig : 60 ≤ 2 ^ (k + 1) := by
                have : 2 ^ k ≤ 2 ^ (k + 1) := Nat.pow_le_pow_right (by norm_num) (by omega)
                omega
              rw [h60, min_eq_right hbig]
              norm_num
          simp only [backoffDelays, List.getD_cons_succ]
          rw [step, show k + (m + 1) = (k + 1) + m by omega]
          exact ih (k + 1) m h'

/-- Outcome-independence of the backoff delays: the delay sequence only
depends on how many attempts have completed. -/
theorem backoffDelays_congr {α β : Type} (d : Nat) (l₁ : List α) (l₂ : List β)
    (h : l₁.length = l₂.length) : backoffDelays d l₁ = backoffDelays d l₂ := by
  induction l₁ generalizing d l₂ with
  | nil =>
      cases l₂ with
      | nil => rfl
      | cons b t => simp at h
  | cons a t ih =>
      cases l₂ with
      | nil => simp at h
      | cons b t₂ =>
          simp only [backoffDelays]
          rw [ih _ t₂ (by simpa using h)]

/-- Claim C5: within one connect_market_stream invocation the delay slept
before the n-th reconnection attempt is min of two to the n minus one and
sixty seconds, the sequence one, two, four, eight, sixteen, thirty-two,
sixty, sixty, and the delay never resets during the invocation, in
particular not after a successful streaming period: the delays do not
depend on the attempt outcomes at all. -/
theorem mt5_reconnect_backoff :
    (∀ (outcomes : List (Except AdapterError Unit)) (n : Nat),
      n < outcomes.length → (backoffDelays 1 outcomes).getD n 0 = min (2 ^ n) 60) ∧
    backoffDelays 1 (List.replicate 8 (Except.ok () : Except AdapterError Unit)) =
      [1, 2, 4, 8, 16, 32, 60, 60] ∧
    (∀ o₁ o₂ : List (Except AdapterError Unit), o₁.length = o₂.length →
      backoffDelays 1 o₁ = backoffDelays 1 o₂) := by
  refine ⟨?_, by rfl, ?_⟩
  · intro outcomes n h
    have h1 : (1 : Nat) = min (2 ^ 0) 60 := by norm_num
    rw [h1]
    simpa using backoffDelays_indexed outcomes 0 n h
  · intro o₁ o₂ h
    exact backoffDelays_congr 1 o₁ o₂ h

/-- Witness for C5: the delay before the seventh reconnection attempt is
already capped at sixty seconds. -/
theorem mt5_reconnect_backoff_witness :
    (backoffDelays 1
      (List.replicate 7 (Except.ok () : Except AdapterError Unit))).getD 6 0 =
      min (2 ^ 6) 60 :=
  mt5_reconnect_backoff.1 (List.replicate 7 (Except.ok ())) 6 (by simp)

/-! ## Claim C7 -/

/-- depthTrades distributes over append. -/
theorem depthTrades_append (a b : List Event) :
    depthTrades (a ++ b) = depthTrades a ++ depthTrades b := by
  induction a with
  | nil => rfl
  | cons e t ih =>
      show eventTrades e ++ depthTrades (t ++ b) =
        (eventTrades e ++ depthTrades t) ++ depthTrades b
      rw [ih, List.append_assoc]

/-- depthTrades of a single DepthReceived event is its trade slice. -/
theorem depthTrades_single (sk : StreamKind) (t : Nat) (d : Depth)
    (trades : List Trade) :
    depthTrades [Event.DepthReceived sk t d trades] = trades := by
  simp [depthTrades, eventTrades]

/-- One depth frame drains the whole buffer into the emitted event and
continues with an empty buffer. -/
theorem mainLoop_depth_step (ti : TickerInfo) (hang : Bool) (s : LoopState)
    (j : Json) (rest : List FrameRes) (sm : ServerMessage) (dp : DepthPayload)
    (hsm : parseServerMessage j = some sm) (hty : sm.msg_type = "depth")
    (hdp : parse_depth j ti = .ok dp) :
    mainLoop ti hang s (Except.ok (Frame.text j) :: rest) =
      mainLoop ti hang
        ⟨s.book.update (.Snapshot dp) ti.min_ticksize, [],
          s.events ++ [Event.DepthReceived (mt5StreamKind ti)
            (s.book.update (.Snapshot dp) ti.min_ticksize).time
            (s.book.update (.Snapshot dp) ti.min_ticksize).depth s.buffer]⟩ rest := by
  have hne : sm.msg_type ≠ "trade" := by
    rw [hty]
    decide
  simp only [mainLoop, hsm]
  rw [if_neg hne, if_pos hty]
  simp only [hdp]

/-- Conservation of trades through the read loop: the trades delivered by
the emitted events plus the final buffer are exactly the trades already
delivered or buffered plus the trades the loop accepts, each exactly
once and in order. -/
theorem mainLoop_conservation (ti : TickerInfo) (hang : Bool) :
    ∀ (frames : List FrameRes) (s : LoopState),
      depthTrades (mainLoop ti hang s frames).state.events ++
        (mainLoop ti hang s frames).state.buffer =
      depthTrades s.events ++ s.buffer ++ acceptedTrades ti frames := by
  intro frames
  induction frames with
  | nil =>
      intro s
      cases hang <;>
        simp [mainLoop, acceptedTrades, LoopOut.state, List.append_assoc]
  | cons fr rest ih =>
      intro s
      cases fr with
      | error e =>
          simp [mainLoop, acceptedTrades, LoopOut.state, List.append_assoc]
      | ok f =>
          cases f with
          | text j =>
              cases hsm : parseServerMessage j with
              | none =>
                  simp only [mainLoop, acceptedTrades, hsm]
                  exact ih s
              | some sm =>
                  by_cases ht : sm.msg_type = "trade"
                  · cases hpt : parse_trade j ti with
                    | ok trade =>
                        simp only [mainLoop, acceptedTrades, hsm, ht, if_pos, hpt]
                        rw [ih ⟨s.book, s.buffer ++ [trade], s.events⟩]
                        simp [List.append_assoc]
                    | error e =>
                        simp only [mainLoop, acceptedTrades, hsm, ht, if_pos, hpt]
                        exact ih s
                  · by_cases hd : sm.msg_type = "depth"
                    · cases hpd : parse_depth j ti with
                      | ok dp =>
                          rw [mainLoop_depth_step ti hang s j rest sm dp hsm hd hpd]
                          rw [ih ⟨s.book.update (.Snapshot dp) ti.min_ticksize, [],
                            s.events ++ [Event.DepthReceived (mt5StreamKind ti)
                              (s.book.update (.Snapshot dp) ti.min_ticksize).time
                              (s.book.update (.Snapshot dp) ti.min_ticksize).depth
                              s.buffer]⟩]
                          simp only [acceptedTrades, hsm]
                          rw [if_neg ht, if_pos hd]
                          rw [depthTrades_append, depthTrades_single]
                          simp [List.append_assoc]
                      | error e =>
                          simp only [mainLoop, acceptedTrades, hsm]
                          rw [if_neg ht, if_pos hd, if_neg ht, if_pos hd]
                          simp only [hpd]
                          exact ih s
                    · simp only [mainLoop, acceptedTrades, hsm]
                      rw [if_neg ht, if_neg hd, if_neg ht, if_neg hd]
                      exact ih s
          | binary =>
              simp only [mainLoop, acceptedTrades]
              exact ih s
          | ping =>
              simp only [mainLoop, acceptedTrades]
              exact ih s
          | pong =>
              simp only [mainLoop, acceptedTrades]
              exact ih s
          | close =>
              simp [mainLoop, acceptedTrades, LoopOut.state]

/-- Claim C7: in the streaming read loop, the trades received since the
previous depth emission are drained together exactly once into the
DepthReceived event that follows them, in arrival order, the buffer is
empty immediately after that emission, and while the stream stays
connected no accepted trade is delivered twice or dropped: the trades
delivered through events plus the remaining buffer are exactly the
starting trades plus the accepted trades. -/
theorem mt5_trade_buffer_drain :
    (∀ (ti : TickerInfo) (hang : Bool) (s : LoopState) (j : Json)
        (rest : List FrameRes) (sm : ServerMessage) (dp : DepthPayload),
      parseServerMessage j = some sm → sm.msg_type = "depth" →
      parse_depth j ti = .ok dp →
      mainLoop ti hang s (Except.ok (Frame.text j) :: rest) =
        mainLoop ti hang
          ⟨s.book.update (.Snapshot dp) ti.min_ticksize, [],
            s.events ++ [Event.DepthReceived (mt5StreamKind ti)
              (s.book.update (.Snapshot dp) ti.min_ticksize).time
              (s.book.update (.Snapshot dp) ti.min_ticksize).depth s.buffer]⟩
          rest) ∧
    (∀ (ti : TickerInfo) (hang : Bool) (frames : List FrameRes) (s : LoopState),
      depthTrades (mainLoop ti hang s frames).state.events ++
        (mainLoop ti hang s frames).state.buffer =
      depthTrades s.events ++ s.buffer ++ acceptedTrades ti frames) :=
  ⟨fun ti hang s j rest sm dp hsm hty hdp =>
    mainLoop_depth_step ti hang s j rest sm dp hsm hty hdp,
   fun ti hang frames s => mainLoop_conservation ti hang frames s⟩


/-- Witness for C7: a concrete depth frame drains a one-trade buffer into
the emitted event and leaves the buffer empty. -/
theorem mt5_trade_buffer_drain_witness :
    mainLoop tiEURUSD false ⟨LocalDepthCache.default, [⟨1, false, 1, 1⟩], []⟩
        [Except.ok (Frame.text depthJson0)] =
      mainLoop tiEURUSD false
        ⟨LocalDepthCache.default.update (.Snapshot ⟨5, 5, [⟨1, 2⟩], []⟩)
            tiEURUSD.min_ticksize, [],
          [] ++ [Event.DepthReceived (mt5StreamKind tiEURUSD)
            (LocalDepthCache.default.update (.Snapshot ⟨5, 5, [⟨1, 2⟩], []⟩)
              tiEURUSD.min_ticksize).time
            (LocalDepthCache.default.update (.Snapshot ⟨5, 5, [⟨1, 2⟩], []⟩)
              tiEURUSD.min_ticksize).depth [⟨1, false, 1, 1⟩]]⟩ [] :=
  mt5_trade_buffer_drain.1 tiEURUSD false
    ⟨LocalDepthCache.default, [⟨1, false, 1, 1⟩], []⟩ depthJson0 []
    ⟨"depth", none, none⟩ ⟨5, 5, [⟨1, 2⟩], []⟩ (by decide) rfl (by decide)

/-! ## Claim C4 -/

/-- The read loop only ever appends DepthReceived events. -/
theorem mainLoop_events (ti : TickerInfo) (hang : Bool) :
    ∀ (frames : List FrameRes) (s : LoopState),
      ∃ evs, (mainLoop ti hang s frames).state.events = s.events ++ evs ∧
        evs.all isDepthReceived = true := by
  intro frames
  induction frames with
  | nil =>
      intro s
      refine ⟨[], ?_, rfl⟩
      cases hang <;> simp [mainLoop, LoopOut.state]
  | cons fr rest ih =>
      intro s
      cases fr with
      | error e => exact ⟨[], by simp [mainLoop, LoopOut.state], rfl⟩
      | ok f =>
          cases f with
          | text j =>
              cases hsm : parseServerMessage j with
              | none =>
                  simp only [mainLoop, hsm]
                  exact ih s
              | some sm =>
                  by_cases ht : sm.msg_type = "trade"
                  · cases hpt : parse_trade j ti with
                    | ok trade =>
                        simp only [mainLoop, hsm]
                        rw [if_pos ht]
                        simp only [hpt]
                        exact ih ⟨s.book, s.buffer ++ [trade], s.events⟩
                    | error e =>
                        simp only [mainLoop, hsm]
                        rw [if_pos ht]
                        simp only [hpt]
                        exact ih s
                  · by_cases hd : sm.msg_type = "depth"
                    · cases hpd : parse_depth j ti with
                      | ok dp =>
                          rw [mainLoop_depth_step ti hang s j rest sm dp hsm hd hpd]
                          obtain ⟨evs, hev, hall⟩ :=
                            ih ⟨s.book.update (.Snapshot dp) ti.min_ticksize, [],
                              s.events ++ [Event.DepthReceived (mt5StreamKind ti)
                                (s.book.update (.Snapshot dp) ti.min_ticksize).time
                                (s.book.update (.Snapshot dp) ti.min_ticksize).depth
                                s.buffer]⟩
                          refine ⟨[Event.DepthReceived (mt5StreamKind ti)
                            (s.book.update (.Snapshot dp) ti.min_ticksize).time
                            (s.book.update (.Snapshot dp) ti.min_ticksize).depth
                            s.buffer] ++ evs, ?_, ?_⟩
                          · rw [hev, List.append_assoc]
                          · simp only [List.all_append, hall, Bool.and_true]
                            rfl
                      | error e =>
                          simp only [mainLoop, hsm]
                          rw [if_neg ht, if_pos hd]
                          simp only [hpd]
                          exact ih s
                    · simp only [mainLoop, hsm]
                      rw [if_neg ht, if_neg hd]
                      exact ih s
          | binary =>
              simp only [mainLoop]
              exact ih s
          | ping =>
              simp only [mainLoop]
              exact ih s
          | pong =>
              simp only [mainLoop]
              exact ih s
          | close => exact ⟨[], by simp [mainLoop, LoopOut.state], rfl⟩

/-- A list of DepthReceived events contains no Connected event. -/
theorem count_connected_zero {evs : List Event}
    (h : evs.all isDepthReceived = true) (ex : Exchange) :
    evs.count (Event.Connected ex) = 0 := by
  rw [List.count_eq_zero]
  intro hmem
  have hdep := List.all_eq_true.1 h _ hmem
  simp [isDepthReceived] at hdep

/-- Claim C4 as amended: in every attempt of the stream driver that
completes, the events are those of the attempt followed by exactly one
Disconnected event whose reason is the clean-close text on a clean end
and the underlying error text otherwise; a Connected event is emitted
exactly once when the transport connection succeeds, as the very first
event, before authentication or subscription, and never when the
transport fails. -/
theorem mt5_connected_disconnected_emissions :
    ∀ (cfg : Mt5Config) (ti : TickerInfo) (book : LocalDepthCache)
      (buffer : List Trade) (env : LiveEnv) (r : Except AdapterError Unit)
      (s : LoopState),
      connect_and_stream cfg ti book buffer env = .done r s →
      streamIterationEvents cfg ti book buffer env =
        s.events ++
          [Event.Disconnected Exchange.MetaTrader5 (disconnectReason r)] ∧
      (s.events.count (Event.Connected Exchange.MetaTrader5) =
        if env.connect = some (.ok ()) then 1 else 0) ∧
      (env.connect = some (.ok ()) →
        s.events.head? = some (Event.Connected Exchange.MetaTrader5)) := by
  intro cfg ti book buffer env r s h
  refine ⟨?_, ?_⟩
  · rw [streamIterationEvents, h]
    cases r with
    | ok u => cases u; rfl
    | error e => rfl
  · cases henv : env.connect with
    | none =>
        simp only [connect_and_stream, henv] at h
        exact absurd h (by intro hc; cases hc)
    | some cr =>
        cases cr with
        | error e =>
            simp only [connect_and_stream, henv] at h
            cases h
            refine ⟨?_, ?_⟩
            · simp
            · intro hco
              simp at hco
        | ok u =>
            cases u
            cases hsa : env.sendAuth with
            | error e =>
                simp only [connect_and_stream, henv, hsa] at h
                cases h
                refine ⟨?_, ?_⟩
                · simp
                · intro _
                  rfl
            | ok u =>
                cases u
                cases hw : authWait env.hangAtEnd env.frames with
                | pending =>
                    simp only [connect_and_stream, henv, hsa, hw] at h
                    exact absurd h (by intro hc; cases hc)
                | failed e =>
                    simp only [connect_and_stream, henv, hsa, hw] at h
                    cases h
                    refine ⟨?_, ?_⟩
                    · simp
                    · intro _
                      rfl
                | closed =>
                    simp only [connect_and_stream, henv, hsa, hw] at h
                    cases h
                    refine ⟨?_, ?_⟩
                    · simp
                    · intro _
                      rfl
                | authed restFrames =>
                    cases hss : env.sendSub with
                    | error e =>
                        simp only [connect_and_stream, henv, hsa, hw, hss] at h
                        cases h
                        refine ⟨?_, ?_⟩
                        · simp
                        · intro _
                          rfl
                    | ok u =>
                        cases u
                        simp only [connect_and_stream, henv, hsa, hw, hss] at h
                        obtain ⟨evs, hev, hall⟩ :=
                          mainLoop_events ti env.hangAtEnd restFrames
                            ⟨book, buffer, [Event.Connected Exchange.MetaTrader5]⟩
                        have hs : s =
                            (mainLoop ti env.hangAtEnd
                              ⟨book, buffer, [Event.Connected Exchange.MetaTrader5]⟩
                              restFrames).state := by
                          rw [h]
                          rfl
                        rw [hs, hev]
                        refine ⟨?_, ?_⟩
                        · rw [List.count_append, count_connected_zero hall]
                          simp
                        · intro _
                          rfl



/-- Counterexample to C4 as stated: the Connected event is emitted on an
attempt whose authentication fails, so the Streaming state is never
entered, refuting that Connected is emitted exactly on transitions into
Streaming after authentication and subscription succeed. -/
theorem mt5_connected_before_auth_counterexample :
    Event.Connected Exchange.MetaTrader5 ∈
      streamIterationEvents Mt5Config.default tiEURUSD LocalDepthCache.default
        [] envAuthFail ∧
    enteredStreaming envAuthFail = false := by
  constructor
  · have hev : streamIterationEvents Mt5Config.default tiEURUSD
        LocalDepthCache.default [] envAuthFail =
        [Event.Connected Exchange.MetaTrader5,
         Event.Disconnected Exchange.MetaTrader5 "bad key"] := rfl
    rw [hev]
    simp
  · rfl

/-- Witness for the amended C4 at the concrete auth-failure environment. -/
theorem mt5_connected_disconnected_emissions_witness :
    streamIterationEvents Mt5Config.default tiEURUSD LocalDepthCache.default
        [] envAuthFail =
      [Event.Connected Exchange.MetaTrader5] ++
        [Event.Disconnected Exchange.MetaTrader5
          (disconnectReason (Except.error (AdapterError.WebsocketError "bad key")))] ∧
    (([Event.Connected Exchange.MetaTrader5] : List Event).count
        (Event.Connected Exchange.MetaTrader5) =
      if envAuthFail.connect = some (.ok ()) then 1 else 0) ∧
    (envAuthFail.connect = some (.ok ()) →
      ([Event.Connected Exchange.MetaTrader5] : List Event).head? =
        some (Event.Connected Exchange.MetaTrader5)) :=
  mt5_connected_disconnected_emissions Mt5Config.default tiEURUSD
    LocalDepthCache.default [] envAuthFail
    (Except.error (AdapterError.WebsocketError "bad key"))
    ⟨LocalDepthCache.default, [], [Event.Connected Exchange.MetaTrader5]⟩ rfl

/-! ## Claim C2 -/

/-- After inserting a key it is present. -/
theorem mapInsert_key_present (m : List (Ticker × Option TickerInfo))
    (k : Ticker) (v : Option TickerInfo) :
    (mapInsert m k v).any (fun p => p.1 = k) = true := by
  rw [mapInsert]
  by_cases hk : m.any (fun p => p.1 = k) = true
  · rw [if_pos hk]
    obtain ⟨p, hp, hpk⟩ := List.any_eq_true.1 hk
    have hpk' : p.1 = k := by simpa using hpk
    have hmem : (if p.1 = k then (k, v) else p) ∈
        List.map (fun q => if q.1 = k then (k, v) else q) m :=
      List.mem_map_of_mem (fun q => if q.1 = k then (k, v) else q) hp
    rw [if_pos hpk'] at hmem
    exact List.any_eq_true.2 ⟨(k, v), hmem, by simp⟩
  · rw [if_neg hk]
    refine List.any_eq_true.2 ⟨(k, v), ?_, by simp⟩
    simp

/-- Insertion preserves the presence of every key. -/
theorem mapInsert_key_preserved (m : List (Ticker × Option TickerInfo))
    (k k' : Ticker) (v : Option TickerInfo)
    (h : m.any (fun p => p.1 = k') = true) :
    (mapInsert m k v).any (fun p => p.1 = k') = true := by
  rw [mapInsert]
  by_cases hk : m.any (fun p => p.1 = k) = true
  · rw [if_pos hk]
    obtain ⟨p, hp, hpk⟩ := List.any_eq_true.1 h
    have hmem := List.mem_map_of_mem (fun q => if q.1 = k then (k, v) else q) hp
    refine List.any_eq_true.2 ⟨if p.1 = k then (k, v) else p, hmem, ?_⟩
    by_cases hpe : p.1 = k
    · rw [if_pos hpe]
      simp only [decide_eq_true_eq] at hpk ⊢
      rw [← hpe, hpk]
    · rw [if_neg hpe]
      exact hpk
  · rw [if_neg hk]
    obtain ⟨p, hp, hpk⟩ := List.any_eq_true.1 h
    exact List.any_eq_true.2 ⟨p, List.mem_append_left _ hp, hpk⟩

/-- The symbol-insertion fold preserves the presence of every key. -/
theorem foldl_insert_preserves (entries : List Mt5SymbolInfo) :
    ∀ (m : List (Ticker × Option TickerInfo)) (k : Ticker),
      m.any (fun p => p.1 = k) = true →
      (entries.foldl insertStep m).any (fun p => p.1 = k) = true := by
  induction entries with
  | nil => intro m k h; exact h
  | cons a t ih =>
      intro m k h
      exact ih (insertStep m a) k (mapInsert_key_preserved m _ k _ h)

/-- Every entry of the list gets a binding in the conversion fold. -/
theorem foldl_insert_mem (entries : List Mt5SymbolInfo) :
    ∀ (m : List (Ticker × Option TickerInfo)) (i : Mt5SymbolInfo), i ∈ entries →
      (entries.foldl insertStep m).any
        (fun p => p.1 = Ticker.new i.symbol Exchange.MetaTrader5) = true := by
  induction entries with
  | nil => intro m i hi; cases hi
  | cons a t ih =>
      intro m i hi
      rcases List.mem_cons.1 hi with rfl | hi
      · exact foldl_insert_preserves t (insertStep m i) _
          (mapInsert_key_present m _ _)
      · exact ih (insertStep m a) i hi

/-- Claim C2 as amended: a transport failure while connecting or sending
(the connect, the auth send, or the request send) and an explicit
authentication rejection each make fetch_ticksize return an adapter
error; but a transport read failure or an early close while awaiting the
auth or the symbols frame is silently swallowed, the auth check being
skipped and the call returning Ok, with an empty mapping when the
symbols frame is missing or unreadable. Malformed entries are not
skipped individually: a symbols response that fails to deserialize as a
whole, which includes a response with any single malformed entry, is
ignored entirely and the call still succeeds with an empty mapping; only
when the whole response is well formed does every entry of the response
appear in the returned mapping. -/
theorem mt5_fetch_ticksize_errors_and_skips :
    (∀ (cfg : Mt5Config) (env : FetchEnv) (e : String),
      env.connect = .error e →
      fetch_ticksize cfg env = .error (.WebsocketError e)) ∧
    (∀ (cfg : Mt5Config) (env : FetchEnv) (e : String),
      env.connect = .ok () → env.sendAuth = .error e →
      fetch_ticksize cfg env = .error (.WebsocketError e)) ∧
    (∀ (cfg : Mt5Config) (env : FetchEnv) (j : Json) (sm : ServerMessage),
      env.connect = .ok () → env.sendAuth = .ok () →
      env.authFrame = some (.ok (.text j)) → parseServerMessage j = some sm →
      sm.msg_type = "auth_response" → sm.success ≠ some true →
      fetch_ticksize cfg env =
        .error (.WebsocketError (sm.error.getD "Auth failed"))) ∧
    ((∀ e : String, authStep (some (.error e)) = .ok ()) ∧
      authStep none = .ok ()) ∧
    (∀ (cfg : Mt5Config) (env : FetchEnv) (e : String),
      env.connect = .ok () → env.sendAuth = .ok () →
      authStep env.authFrame = .ok () → env.sendReq = .error e →
      fetch_ticksize cfg env = .error (.WebsocketError e)) ∧
    (∀ (cfg : Mt5Config) (env : FetchEnv) (e : String),
      env.connect = .ok () → env.sendAuth = .ok () →
      authStep env.authFrame = .ok () → env.sendReq = .ok () →
      env.respFrame = some (.error e) →
      fetch_ticksize cfg env = .ok []) ∧
    (∀ (cfg : Mt5Config) (env : FetchEnv),
      env.connect = .ok () → env.sendAuth = .ok () →
      authStep env.authFrame = .ok () → env.sendReq = .ok () →
      env.respFrame = none →
      fetch_ticksize cfg env = .ok []) ∧
    (∀ (cfg : Mt5Config) (env : FetchEnv) (j : Json),
      env.connect = .ok () → env.sendAuth = .ok () →
      authStep env.authFrame = .ok () → env.sendReq = .ok () →
      env.respFrame = some (.ok (.text j)) → parseSymbolsResponse j = none →
      fetch_ticksize cfg env = .ok []) ∧
    (∀ (cfg : Mt5Config) (env : FetchEnv) (j : Json)
        (entries : List Mt5SymbolInfo),
      env.connect = .ok () → env.sendAuth = .ok () →
      authStep env.authFrame = .ok () → env.sendReq = .ok () →
      env.respFrame = some (.ok (.text j)) →
      parseSymbolsResponse j = some entries →
      fetch_ticksize cfg env = .ok (insertSymbols entries) ∧
      ∀ i ∈ entries, (insertSymbols entries).any
        (fun p => p.1 = Ticker.new i.symbol Exchange.MetaTrader5) = true) := by
  refine ⟨?_, ?_, ?_, ⟨fun e => rfl, rfl⟩, ?_, ?_, ?_, ?_, ?_⟩
  · intro cfg env e h
    rw [fetch_ticksize, h]
  · intro cfg env e h1 h2
    rw [fetch_ticksize, h1, h2]
  · intro cfg env j sm h1 h2 h3 h4 h5 h6
    have hstep : authStep env.authFrame =
        .error (.WebsocketError (sm.error.getD "Auth failed")) := by
      rw [h3, authStep]
      simp only [h4]
      rw [if_pos ⟨h5, h6⟩]
    rw [fetch_ticksize, h1, h2, hstep]
  · intro cfg env e h1 h2 h3 h4
    simp only [fetch_ticksize, h1, h2, h3, h4]
  · intro cfg env e h1 h2 h3 h4 h5
    simp only [fetch_ticksize, h1, h2, h3, h4, h5]
  · intro cfg env h1 h2 h3 h4 h5
    simp only [fetch_ticksize, h1, h2, h3, h4, h5]
  · intro cfg env j h1 h2 h3 h4 h5 h6
    rw [fetch_ticksize, h1, h2, h3, h4, h5]
    simp only [h6]
  · intro cfg env j entries h1 h2 h3 h4 h5 h6
    constructor
    · rw [fetch_ticksize, h1, h2, h3, h4, h5]
      simp only [h6]
    · intro i hi
      exact foldl_insert_mem entries [] i hi

/-- Counterexample to C2 as stated: a response holding a well-formed
entry beside a malformed one returns an empty mapping, the well-formed
entry missing, refuting that only malformed entries are skipped; and a
transport read failure on the symbols frame, or on the auth frame with
the peer then closing, still returns Ok with an empty mapping, refuting
that every transport failure surfaces as an adapter error. -/
theorem mt5_fetch_ticksize_counterexample :
    parseMt5SymbolInfo goodSymbolJson =
      some ⟨"EURUSD", 1 / 100000, 1 / 100, 100000, 5⟩ ∧
    fetch_ticksize Mt5Config.default envMixedSymbols = .ok [] ∧
    fetch_ticksize Mt5Config.default envReadError = .ok [] ∧
    fetch_ticksize Mt5Config.default envAuthReadError = .ok [] := by
  refine ⟨rfl, rfl, rfl, rfl⟩

/-- Witness for the amended C2: a concrete connect failure surfaces as an
adapter error, a concrete read failure on the symbols frame is swallowed
into an Ok empty mapping, and a concrete well-formed response yields a
mapping holding its entry. -/
theorem mt5_fetch_ticksize_errors_and_skips_witness :
    fetch_ticksize Mt5Config.default envConnRefused =
      .error (.WebsocketError "Connection refused") ∧
    fetch_ticksize Mt5Config.default envReadError = .ok [] ∧
    fetch_ticksize Mt5Config.default envGoodSymbols =
      .ok (insertSymbols [⟨"EURUSD", 1 / 100000, 1 / 100, 100000, 5⟩]) :=
  ⟨mt5_fetch_ticksize_errors_and_skips.1 Mt5Config.default envConnRefused
      "Connection refused" rfl,
   mt5_fetch_ticksize_errors_and_skips.2.2.2.2.2.1 Mt5Config.default
      envReadError "connection reset" rfl rfl rfl rfl rfl,
   (mt5_fetch_ticksize_errors_and_skips.2.2.2.2.2.2.2.2 Mt5Config.default
      envGoodSymbols goodSymbolsResponse
      [⟨"EURUSD", 1 / 100000, 1 / 100, 100000, 5⟩]
      rfl rfl rfl rfl rfl rfl).1⟩

/-! ## Claim C3 -/

/-- Claim C3 as amended: in test_connection, connection establishment is
bounded by the configurable per-connection timeout and the wait for the
auth response by a fixed ten-second timeout, each expiry returning an
error; in the live stream, connect_and_stream applies no timeout to
either wait, so a transport or an auth response that never arrives
leaves the attempt pending forever with no Disconnected transition. -/
theorem mt5_timeout_bounds :
    (∀ (cfg : Mt5Config) (env : TestEnv),
      cfg.validate = .ok () → env.connectTime = none →
      cfg.test_connection env = .error "Connection timeout") ∧
    (∀ (cfg : Mt5Config) (env : TestEnv) (t : Nat),
      cfg.validate = .ok () → env.connectTime = some t → cfg.timeout_secs < t →
      cfg.test_connection env = .error "Connection timeout") ∧
    (∀ (cfg : Mt5Config) (env : TestEnv) (t : Nat),
      cfg.validate = .ok () → env.connectTime = some t →
      ¬cfg.timeout_secs < t → env.connectResult = .ok () →
      env.sendResult = .ok () → env.authTime = none →
      cfg.test_connection env = .error "Auth response timeout") ∧
    (∀ (cfg : Mt5Config) (env : TestEnv) (t t2 : Nat),
      cfg.validate = .ok () → env.connectTime = some t →
      ¬cfg.timeout_secs < t → env.connectResult = .ok () →
      env.sendResult = .ok () → env.authTime = some t2 → 10 < t2 →
      cfg.test_connection env = .error "Auth response timeout") ∧
    (∀ (cfg : Mt5Config) (ti : TickerInfo) (book : LocalDepthCache)
        (buffer : List Trade) (env : LiveEnv),
      env.connect = none →
      connect_and_stream cfg ti book buffer env = .hangs ⟨book, buffer, []⟩) ∧
    (∀ (cfg : Mt5Config) (ti : TickerInfo) (book : LocalDepthCache)
        (buffer : List Trade) (env : LiveEnv),
      env.connect = some (.ok ()) → env.sendAuth = .ok () →
      authWait env.hangAtEnd env.frames = .pending →
      connect_and_stream cfg ti book buffer env =
        .hangs ⟨book, buffer, [Event.Connected Exchange.MetaTrader5]⟩) := by
  refine ⟨?_, ?_, ?_, ?_, ?_, ?_⟩
  · intro cfg env hv hc
    simp only [Mt5Config.test_connection, hv, hc]
  · intro cfg env t hv hc ht
    simp only [Mt5Config.test_connection, hv, hc]
    rw [if_pos ht]
  · intro cfg env t hv hc ht hcr hsr ha
    simp only [Mt5Config.test_connection, hv, hc, hcr, hsr, ha]
    rw [if_neg ht]
  · intro cfg env t t2 hv hc ht hcr hsr ha ht2
    simp only [Mt5Config.test_connection, hv, hc, hcr, hsr, ha]
    rw [if_neg ht, if_pos ht2]
  · intro cfg ti book buffer env hc
    simp only [connect_and_stream, hc]
  · intro cfg ti book buffer env hc hsa hw
    simp only [connect_and_stream, hc, hsa, hw]

/-- Counterexample to C3 as stated: with the transport never completing,
the live-stream attempt hangs with no event at all, in particular no
Disconnected transition, refuting that connection establishment during a
live stream is bounded by the configurable timeout. -/
theorem mt5_timeout_bounds_counterexample :
    connect_and_stream Mt5Config.default tiEURUSD LocalDepthCache.default []
        ⟨none, .ok (), .ok (), [], true⟩ =
      .hangs ⟨LocalDepthCache.default, [], []⟩ := rfl

/-- Witness for the amended C3 at concrete configurations: a never
completing connect and an eleven-second auth delay in test_connection
both yield timeout errors, and a never completing auth response leaves
the live stream pending after the Connected event. -/
theorem mt5_timeout_bounds_witness :
    Mt5Config.test_connection ⟨"a", "k", "s", false, 30, true⟩
        ⟨none, .ok (), .ok (), none, none⟩ = .error "Connection timeout" ∧
    Mt5Config.test_connection ⟨"a", "k", "s", false, 30, true⟩
        ⟨some 1, .ok (), .ok (), some 11, none⟩ =
      .error "Auth response timeout" ∧
    connect_and_stream Mt5Config.default tiEURUSD LocalDepthCache.default []
        ⟨some (.ok ()), .ok (), .ok (), [], true⟩ =
      .hangs ⟨LocalDepthCache.default, [],
        [Event.Connected Exchange.MetaTrader5]⟩ :=
  ⟨mt5_timeout_bounds.1 ⟨"a", "k", "s", false, 30, true⟩
      ⟨none, .ok (), .ok (), none, none⟩ rfl rfl,
   mt5_timeout_bounds.2.2.2.1 ⟨"a", "k", "s", false, 30, true⟩
      ⟨some 1, .ok (), .ok (), some 11, none⟩ 1 11 rfl rfl (by decide) rfl rfl
      rfl (by decide),
   mt5_timeout_bounds.2.2.2.2.2 Mt5Config.default tiEURUSD
      LocalDepthCache.default [] ⟨some (.ok ()), .ok (), .ok (), [], true⟩
      rfl rfl rfl⟩
